import Mathlib

/-!
Verification of the Trimming audio-classification pipeline.

The repository consists of two Python scripts:
`AudioClassifier2.py` (feature extraction, dataset adapter, LSTM classifier,
training loop, single-file prediction) and `predict2.py` (the entry point that
loads or trains a model and classifies every `.wav` file in a directory).

This file shallowly embeds the parts of those scripts that the verified
properties talk about.  Machine floats are modelled by `ℚ` where the
computation is exact arithmetic over stored values, and by `ℝ` where the
property concerns real-valued functions such as softmax.  Python exceptions
are modelled by `Except PyError`.
-/

namespace Trimming

/-- The Python runtime errors that the two scripts can raise on the modelled
paths: `IndexError` from indexing past a numpy array, `KeyError` from a
failed dict lookup (carrying the missing key), and `TypeError` from calling
a function with the wrong number of arguments. -/
inductive PyError where
  | indexError : PyError
  | keyError : String → PyError
  | typeError : PyError
deriving DecidableEq

/-- The dict `{"parkinson": 0, "notParkinson": 1}` built in
`AudioDataset.__init__` (AudioClassifier2.py line 26), as a partial map:
`none` models a `KeyError` on lookup. -/
def label_map (s : String) : Option ℕ :=
  if s = "parkinson" then some 0 else if s = "notParkinson" then some 1 else none

/-- The `AudioDataset` wrapper (AudioClassifier2.py lines 12-46): parallel
arrays of feature vectors `X` and label strings `y`. -/
structure AudioDataset where
  X : List (List ℚ)
  y : List String

/-- `__len__` of `AudioDataset` (line 35): the length of `X`. -/
def datasetLen (d : AudioDataset) : ℕ := d.X.length

/-- Indexing a numpy array with a Python `int`: indices in `[0, n)` address
directly, indices in `[-n, 0)` address from the end, anything else raises
`IndexError`. -/
def npIndex {α : Type} (xs : List α) (i : ℤ) : Except PyError α :=
  if h : 0 ≤ i ∧ i < (xs.length : ℤ) then
    Except.ok (xs.get ⟨i.toNat, by omega⟩)
  else if h2 : -(xs.length : ℤ) ≤ i ∧ i < 0 then
    Except.ok (xs.get ⟨(i + (xs.length : ℤ)).toNat, by omega⟩)
  else
    Except.error PyError.indexError

/-- `AudioDataset.__getitem__` (AudioClassifier2.py lines 37-46).  Python
evaluates `self.label_map[self.y[idx]]` first (array access, then dict
lookup), then `self.X[idx]`, and returns the pair; the first failure
propagates. -/
def datasetGetitem (d : AudioDataset) (idx : ℤ) : Except PyError (List ℚ × ℕ) :=
  match npIndex d.y idx with
  | Except.error e => Except.error e
  | Except.ok lbl =>
    match label_map lbl with
    | none => Except.error (PyError.keyError lbl)
    | some code =>
      match npIndex d.X idx with
      | Except.error e => Except.error e
      | Except.ok xv => Except.ok (xv, code)

/-- A one-sample dataset used to exercise `datasetGetitem` on concrete
inputs. -/
def c9Dataset : AudioDataset := ⟨[[1]], ["parkinson"]⟩

/-- The trailing `if predicted.item() == 0 ... else ...` of `predict_audio`
(AudioClassifier2.py lines 233-236), mapping an arg-max class to the printed
prediction string. -/
def interpretPrediction (predicted : ℕ) : String :=
  if predicted = 0 then "Parkinson\x27s" else "Not Parkinson\x27s"

/-- One step of the counting loop of predict2.py (lines 35-42): the first
component counts predictions equal to the Parkinson string, the second
counts every other prediction. -/
def tallyStep (acc : ℕ × ℕ) (p : String) : ℕ × ℕ :=
  if p = "Parkinson\x27s" then (acc.1 + 1, acc.2) else (acc.1, acc.2 + 1)

/-- The whole counting loop of predict2.py, starting from
`parkinsonCounter = 0` and `notParkinsonCounter = 0` (lines 32-42). -/
def tallyPredictions (preds : List String) : ℕ × ℕ :=
  preds.foldl tallyStep (0, 0)

/-- What the directory mode of predict2.py reports: the two class counts and,
when it is computed at all, the positive percentage. -/
structure DirectoryRunResult where
  parkinsonCounter : ℕ
  notParkinsonCounter : ℕ
  parkinsonPercentage : Option ℚ

/-- The directory mode of predict2.py (lines 32-51), given the arg-max class
the classifier assigns to each `.wav` file: each class is mapped to its
prediction string, the strings are tallied, and the percentage
`parkinsonCounter / (parkinsonCounter + notParkinsonCounter) * 100` is
computed only under the guard `parkinsonCounter + notParkinsonCounter > 0`
(line 44); otherwise that print is skipped, modelled by `none`. -/
def directoryRun (classes : List ℕ) : DirectoryRunResult :=
  let preds := classes.map interpretPrediction
  let t := tallyPredictions preds
  ⟨t.1, t.2,
    if t.1 + t.2 > 0 then some ((t.1 : ℚ) / ((t.1 : ℚ) + (t.2 : ℚ)) * 100) else none⟩

/-- Python `f"{x:.2f}"` rendering of a percentage, modelled as the integer
number of hundredths after rounding to the nearest: the rendered text
`"66.67"` corresponds to the value `6667`. -/
def format2f (q : ℚ) : ℤ := round (q * 100)

/-- The value stored in the Python variable `loss` at line 164 of
AudioClassifier2.py, where `train_losses.append(loss.item())` runs.  Within
one epoch `loss` starts as `None` (line 142), is reassigned by every
training batch (line 146), and is then reassigned again by every validation
batch (line 159), so the appended value is the fold over both loops. -/
def epochAppendedTrainLoss (trainBatchLosses valBatchLosses : List ℚ) : Option ℚ :=
  valBatchLosses.foldl (fun _ l => some l) (trainBatchLosses.foldl (fun _ l => some l) none)

/-- The value appended to `val_losses` for one epoch (lines 153-165): the sum
of the per-batch validation losses divided by the number of validation
batches. -/
def epochAppendedValLoss (valBatchLosses : List ℚ) : ℚ :=
  valBatchLosses.sum / (valBatchLosses.length : ℚ)

/-- The number of parameters in the declaration
`def train_and_evaluate_model():` (AudioClassifier2.py line 114). -/
def trainAndEvaluateModelParamCount : ℕ := 0

/-- Observable milestones of the entry-point model-setup phase of
predict2.py. -/
inductive EntryEvent where
  | featuresExtracted : EntryEvent
  | trained : EntryEvent
  | checkpointLoaded : EntryEvent
deriving DecidableEq

/-- Calling `train_and_evaluate_model` with `argCount` positional arguments:
Python checks the arity against the declared parameter count before running
the body, raising `TypeError` on mismatch; only a successful call performs
feature extraction and training. -/
def callTrainAndEvaluateModel (argCount : ℕ) : Except PyError (List EntryEvent) :=
  if argCount = trainAndEvaluateModelParamCount then
    Except.ok [EntryEvent.featuresExtracted, EntryEvent.trained]
  else
    Except.error PyError.typeError

/-- The model-setup phase of predict2.py (lines 13-21): if the checkpoint
file is absent, call `train_and_evaluate_model(train_on_trimmed)` — one
argument; otherwise, if the train flag is set, make the same call; otherwise
load the checkpoint. -/
def predictEntrySetup (checkpointExists trainFlag : Bool) : Except PyError (List EntryEvent) :=
  if !checkpointExists then callTrainAndEvaluateModel 1
  else if trainFlag then callTrainAndEvaluateModel 1
  else Except.ok [EntryEvent.checkpointLoaded]

/-- The path the trainer saves the checkpoint to:
`torch.save(model.state_dict(), 'audio_classifier2.pth')`
(AudioClassifier2.py line 170). -/
def trainerCheckpointPath : String := "audio_classifier2.pth"

/-- The path the entry point checks and loads:
`'models/audio_classifier2.pth'` (predict2.py lines 13 and 21). -/
def inferenceCheckpointPath : String := "models/audio_classifier2.pth"

/-- A PyTorch `DataLoader` over a split with `batch_size=32` and
`drop_last` left at its default `False` (AudioClassifier2.py lines 122-124):
the pass order is cut into consecutive groups of 32, the final group keeping
whatever remains. -/
def toBatches {α : Type} : List α → List (List α)
  | [] => []
  | x :: rest => ((x :: rest).take 32) :: toBatches ((x :: rest).drop 32)
termination_by l => l.length
decreasing_by simp [List.length_drop]; omega

/-- The parameters of `AudioClassifier` (AudioClassifier2.py lines 95-101)
that its `forward` method reads: the two-layer LSTM is embedded as the map
it denotes in evaluation mode from the single-step input sequence to the
final 128-wide hidden output, and the two linear layers are embedded by
their weight matrices and bias vectors. -/
structure ClassifierParams where
  lstm : (Fin 40 → ℝ) → Fin 128 → ℝ
  hiddenW : Fin 64 → Fin 128 → ℝ
  hiddenB : Fin 64 → ℝ
  outputW : Fin 2 → Fin 64 → ℝ
  outputB : Fin 2 → ℝ

/-- `nn.ReLU` applied pointwise. -/
def relu (x : ℝ) : ℝ := max x 0

/-- `torch.softmax` along a row of 2 logits (AudioClassifier2.py
line 110). -/
noncomputable def softmax (z : Fin 2 → ℝ) : Fin 2 → ℝ :=
  fun i => Real.exp (z i) / ∑ j, Real.exp (z j)

/-- `AudioClassifier.forward` on one row of the batch (AudioClassifier2.py
lines 103-111): the LSTM output for the one-step sequence, then the 128→64
linear layer, ReLU, the 64→2 linear layer, then softmax.  Rows of a batch
are processed independently, so the batched forward is the map of this
function. -/
noncomputable def classifierForward (p : ClassifierParams) (v : Fin 40 → ℝ) : Fin 2 → ℝ :=
  let h := p.lstm v
  let a := fun j => relu ((∑ k, p.hiddenW j k * h k) + p.hiddenB j)
  let z := fun i => (∑ j, p.outputW i j * a j) + p.outputB i
  softmax z

/-- `AudioClassifier.forward` on a whole batch: every row through
`classifierForward`. -/
noncomputable def classifierForwardBatch (p : ClassifierParams)
    (batch : List (Fin 40 → ℝ)) : List (Fin 2 → ℝ) :=
  batch.map (classifierForward p)

/-- `torch.max(output.data, 1)` on a 2-wide row: the index of the maximal
entry, the first one on ties. -/
noncomputable def torchArgmax2 (out : Fin 2 → ℝ) : ℕ :=
  if out 0 < out 1 then 1 else 0

/-- `predict_audio` (AudioClassifier2.py lines 197-236) after feature
extraction: the one-sample batch through the model, the arg-max class, and
the class-to-string interpretation. -/
noncomputable def predict_audio (p : ClassifierParams) (v : Fin 40 → ℝ) : String :=
  interpretPrediction (torchArgmax2 (classifierForward p v))

/-- `torch.save(state_dict, path)` against a file store mapping paths to
stored parameter blobs. -/
def torchSave (fs : String → Option ClassifierParams) (path : String)
    (blob : ClassifierParams) : String → Option ClassifierParams :=
  fun q => if q = path then some blob else fs q

/-- `torch.load(path)` against a file store. -/
def torchLoad (fs : String → Option ClassifierParams) (path : String) :
    Option ClassifierParams :=
  fs path

/-- A file store with no checkpoint saved yet. -/
def emptyFileStore : String → Option ClassifierParams := fun _ => none

/-- Concrete all-zero classifier parameters, used to exercise the theorems
on a concrete model. -/
noncomputable def zeroParams : ClassifierParams :=
  ⟨fun _ _ => 0, fun _ _ => 0, fun _ => 0, fun _ _ => 0, fun _ => 0⟩

/-- A concrete all-zero 40-dimensional input vector. -/
noncomputable def zeroInput : Fin 40 → ℝ := fun _ => 0

/-- `np.mean(mfccs.T, axis=0)` (AudioClassifier2.py lines 77 and 210): the
argument is the transposed MFCC matrix, a list of `T` frames of
`n_mfcc = 40` coefficients each, and the result is the per-column mean —
one entry per coefficient of the first frame, averaging that coefficient
over all frames. -/
def npMeanAxis0 (x : List (List ℚ)) : List ℚ :=
  match x with
  | [] => []
  | r :: rest =>
    (List.range r.length).map
      (fun j => (((r :: rest).map (fun row => row.getD j 0)).sum) / (((r :: rest).length : ℚ)))

/-- A concrete one-frame MFCC matrix (transposed), used to exercise the
feature-shape theorem. -/
def c8Rows : List (List ℚ) := [List.replicate 40 0]

/-! ## Theorems -/

/-- Claim C1: the training loop is claimed to append the last training
batch loss to the training side of the loss trace, but the Python variable
`loss` is reassigned by the validation loop before the append, so the value
appended is the last validation batch loss.  Concretely, with one training
batch of loss 1 and one validation batch of loss 2, the training side
records 2, not 1; the validation side correctly records the mean validation
loss. -/
theorem c1_loss_trace_bug :
    epochAppendedTrainLoss [1] [2] = some 2 ∧
    ([1] : List ℚ).getLast? = some 1 ∧
    epochAppendedValLoss [2] = 2 ∧
    epochAppendedTrainLoss [1] [2] ≠ some 1 := by
  refine ⟨by simp [epochAppendedTrainLoss], rfl, by simp [epochAppendedValLoss], ?_⟩
  norm_num [epochAppendedTrainLoss]

/-- Claim C3: whenever the entry point takes the training path (checkpoint
absent, or the train flag set), it calls `train_and_evaluate_model` — a
function declared with zero parameters — with one argument, so the run
aborts with a `TypeError`; the error result carries no events, so no
feature extraction or training happened. -/
theorem c3_training_path_type_error (checkpointExists trainFlag : Bool)
    (h : checkpointExists = false ∨ trainFlag = true) :
    predictEntrySetup checkpointExists trainFlag = Except.error PyError.typeError ∧
    trainAndEvaluateModelParamCount = 0 := by
  refine ⟨?_, rfl⟩
  rcases h with h | h
  · subst h; rfl
  · subst h; cases checkpointExists <;> rfl

/-- Witness for C3: the training path with the checkpoint absent aborts with
a `TypeError`. -/
theorem c3_training_path_type_error_witness :
    (false = false ∨ false = true) ∧
    (predictEntrySetup false false = Except.error PyError.typeError ∧
     trainAndEvaluateModelParamCount = 0) :=
  ⟨Or.inl rfl, c3_training_path_type_error false false (Or.inl rfl)⟩

/-- Claim C5: on a directory of 3 files classified [0, 1, 0], the predictor
reports 2 Parkinson predictions, 1 other prediction, and a positive rate
whose two-decimal rendering is 66.67 percent. -/
theorem c5_directory_scenario :
    (directoryRun [0, 1, 0]).parkinsonCounter = 2 ∧
    (directoryRun [0, 1, 0]).notParkinsonCounter = 1 ∧
    (directoryRun [0, 1, 0]).parkinsonPercentage = some (200 / 3) ∧
    ((directoryRun [0, 1, 0]).parkinsonPercentage).map format2f = some 6667 := by
  have hp : (directoryRun [0, 1, 0]).parkinsonPercentage
      = some (((2 : ℕ) : ℚ) / (((2 : ℕ) : ℚ) + ((1 : ℕ) : ℚ)) * 100) := rfl
  have hv : (((2 : ℕ) : ℚ) / (((2 : ℕ) : ℚ) + ((1 : ℕ) : ℚ)) * 100) = 200 / 3 := by
    push_cast
    norm_num
  refine ⟨rfl, rfl, ?_, ?_⟩
  · rw [hp, hv]
  · rw [hp, hv]
    show some (format2f (200 / 3)) = some 6667
    have hf : format2f (200 / 3) = 6667 := by
      rw [format2f, round_eq]
      norm_num
    rw [hf]

/-- The two tally counters always sum to the number of predictions seen:
each loop iteration increments exactly one of them. -/
theorem tallyStep_foldl_sum (preds : List String) (acc : ℕ × ℕ) :
    (preds.foldl tallyStep acc).1 + (preds.foldl tallyStep acc).2
      = acc.1 + acc.2 + preds.length := by
  induction preds generalizing acc with
  | nil => simp
  | cons p ps ih =>
    rw [List.foldl_cons, ih]
    have hstep : (tallyStep acc p).1 + (tallyStep acc p).2 = acc.1 + acc.2 + 1 := by
      rw [tallyStep]
      split <;> simp <;> omega
    simp only [List.length_cons]
    omega

/-- Claim C10: the directory mode skips the percentage line exactly when the
directory has no `.wav` files, in which case both counters are printed as 0;
since the division is guarded by the total count being positive, division by
zero is unreachable for every input directory. -/
theorem c10_empty_directory_guard (classes : List ℕ) :
    ((directoryRun classes).parkinsonPercentage = none ↔ classes = []) ∧
    (directoryRun []).parkinsonCounter = 0 ∧
    (directoryRun []).notParkinsonCounter = 0 := by
  refine ⟨?_, rfl, rfl⟩
  have hsum : (tallyPredictions (classes.map interpretPrediction)).1
      + (tallyPredictions (classes.map interpretPrediction)).2 = classes.length := by
    rw [tallyPredictions, tallyStep_foldl_sum]
    simp
  constructor
  · intro hn
    rcases Nat.eq_zero_or_pos ((tallyPredictions (classes.map interpretPrediction)).1
        + (tallyPredictions (classes.map interpretPrediction)).2) with h0 | hpos
    · have hlen : classes.length = 0 := by omega
      exact List.length_eq_zero.mp hlen
    · exfalso
      have hsome : (directoryRun classes).parkinsonPercentage ≠ none := by
        simp only [directoryRun]
        rw [if_pos hpos]
        exact Option.some_ne_none _
      exact hsome hn
  · intro hc
    subst hc
    rfl

/-- Counterexample to claim C9 as stated: the index -1 lies outside
[0, count), yet `__getitem__` succeeds, because numpy arrays accept negative
indices that address from the end. -/
theorem c9_negative_index_counterexample :
    datasetGetitem c9Dataset (-1) = Except.ok ([1], 0) ∧
    datasetLen c9Dataset = 1 ∧ ¬ (0 ≤ (-1 : ℤ)) :=
  ⟨rfl, rfl, by decide⟩

/-- `npIndex` either raises `IndexError`, exactly when the index lies
outside `[-n, n)`, or returns an element, exactly when it lies inside. -/
theorem npIndex_spec {α : Type} (xs : List α) (i : ℤ) :
    (npIndex xs i = Except.error PyError.indexError
        ∧ (i < -(xs.length : ℤ) ∨ (xs.length : ℤ) ≤ i))
    ∨ ((∃ v, npIndex xs i = Except.ok v)
        ∧ -(xs.length : ℤ) ≤ i ∧ i < (xs.length : ℤ)) := by
  rw [npIndex]
  split
  next h => exact Or.inr ⟨⟨_, rfl⟩, by omega⟩
  next h =>
    split
    next h2 => exact Or.inr ⟨⟨_, rfl⟩, by omega⟩
    next h2 => exact Or.inl ⟨rfl, by omega⟩

/-- Claim C9, amended: since numpy indexing also accepts negative indices
that address from the end, `__getitem__` raises `IndexError` exactly when
the index lies outside `[-count, count)`; for an index in that range it
raises `KeyError` when the label string at the addressed position is not
one of the two recognized categories, and otherwise returns the feature
vector at that position paired with the integer code of the label. -/
theorem c9_lookup_amended (d : AudioDataset) (idx : ℤ)
    (hlen : d.X.length = d.y.length) :
    ((datasetGetitem d idx = Except.error PyError.indexError)
        ↔ (idx < -(d.y.length : ℤ) ∨ (d.y.length : ℤ) ≤ idx)) ∧
    (∀ lbl, npIndex d.y idx = Except.ok lbl → label_map lbl = none →
        datasetGetitem d idx = Except.error (PyError.keyError lbl)) ∧
    (∀ lbl code xv, npIndex d.y idx = Except.ok lbl → label_map lbl = some code →
        npIndex d.X idx = Except.ok xv →
        datasetGetitem d idx = Except.ok (xv, code)) := by
  refine ⟨⟨?_, ?_⟩, ?_, ?_⟩
  · intro herr
    rcases npIndex_spec d.y idx with ⟨hy, hr⟩ | ⟨⟨lbl, hy⟩, hr⟩
    · exact hr
    · exfalso
      rcases hmap : label_map lbl with _ | code
      · simp only [datasetGetitem, hy, hmap] at herr
        exact PyError.noConfusion (Except.error.inj herr)
      · rcases npIndex_spec d.X idx with ⟨hx, hrx⟩ | ⟨⟨xv, hx⟩, hrx⟩
        · omega
        · simp only [datasetGetitem, hy, hmap, hx] at herr
          exact Except.noConfusion herr
  · intro hr
    have hy : npIndex d.y idx = Except.error PyError.indexError := by
      rcases npIndex_spec d.y idx with ⟨hy, _⟩ | ⟨⟨v, hy⟩, hr2⟩
      · exact hy
      · omega
    simp only [datasetGetitem, hy]
  · intro lbl hy hmap
    simp only [datasetGetitem, hy, hmap]
  · intro lbl code xv hy hmap hx
    simp only [datasetGetitem, hy, hmap, hx]

/-- Witness for the amended C9: the one-sample dataset at index 0, whose
label is recognized, satisfies all three clauses. -/
theorem c9_lookup_amended_witness :
    c9Dataset.X.length = c9Dataset.y.length ∧
    (((datasetGetitem c9Dataset 0 = Except.error PyError.indexError)
        ↔ ((0 : ℤ) < -(c9Dataset.y.length : ℤ) ∨ (c9Dataset.y.length : ℤ) ≤ 0)) ∧
    (∀ lbl, npIndex c9Dataset.y 0 = Except.ok lbl → label_map lbl = none →
        datasetGetitem c9Dataset 0 = Except.error (PyError.keyError lbl)) ∧
    (∀ lbl code xv, npIndex c9Dataset.y 0 = Except.ok lbl → label_map lbl = some code →
        npIndex c9Dataset.X 0 = Except.ok xv →
        datasetGetitem c9Dataset 0 = Except.ok (xv, code))) :=
  ⟨rfl, c9_lookup_amended c9Dataset 0 rfl⟩

/-- Concatenating the batches of one loader pass gives back the pass order
unchanged. -/
theorem toBatches_flatten {α : Type} : ∀ (l : List α), (toBatches l).flatten = l
  | [] => by rw [toBatches]; rfl
  | x :: rest => by
    rw [toBatches, List.flatten_cons,
      toBatches_flatten ((x :: rest).drop 32), List.take_append_drop]
termination_by l => l.length
decreasing_by simp [List.length_drop]; omega

/-- The loader yields no batch exactly on the empty split. -/
theorem toBatches_eq_nil_iff {α : Type} (l : List α) : toBatches l = [] ↔ l = [] := by
  cases l with
  | nil =>
    rw [toBatches]
    simp
  | cons x rest =>
    rw [toBatches]
    simp

/-- Every batch the loader yields is nonempty and holds at most 32
entries. -/
theorem toBatches_mem_length {α : Type} :
    ∀ (l : List α), ∀ b ∈ toBatches l, 1 ≤ b.length ∧ b.length ≤ 32
  | [] => by
    intro b hb
    rw [toBatches] at hb
    exact absurd hb (List.not_mem_nil b)
  | x :: rest => by
    intro b hb
    rw [toBatches] at hb
    rcases List.mem_cons.mp hb with h | h
    · subst h
      simp only [List.length_take, List.length_cons]
      omega
    · exact toBatches_mem_length ((x :: rest).drop 32) b h
termination_by l => l.length
decreasing_by simp [List.length_drop]; omega

/-- Every batch the loader yields before the final one holds exactly 32
entries. -/
theorem toBatches_dropLast_length {α : Type} :
    ∀ (l : List α), ∀ b ∈ (toBatches l).dropLast, b.length = 32
  | [] => by
    intro b hb
    rw [toBatches] at hb
    exact absurd hb (List.not_mem_nil b)
  | x :: rest => by
    intro b hb
    rw [toBatches] at hb
    by_cases hdrop : (x :: rest).drop 32 = []
    · rw [hdrop, toBatches] at hb
      exact absurd hb (List.not_mem_nil b)
    · have hne : toBatches ((x :: rest).drop 32) ≠ [] := by
        rw [ne_eq, toBatches_eq_nil_iff]
        exact hdrop
      rw [List.dropLast_cons_of_ne_nil hne] at hb
      rcases List.mem_cons.mp hb with h | h
      · subst h
        have hlong : 32 < (x :: rest).length := by
          by_contra hle
          push_neg at hle
          exact hdrop (List.drop_eq_nil_of_le hle)
        simp only [List.length_take]
        omega
      · exact toBatches_dropLast_length ((x :: rest).drop 32) b h
termination_by l => l.length
decreasing_by simp [List.length_drop]; omega

/-- Claim C6: for any split and any pass order the loader draws (the
training loader uses the split order itself, the shuffled loaders a
permutation of it), the concatenation of the batches of one pass is a
permutation of the split — no duplicates, no omissions — and every batch
has exactly 32 entries except possibly the last, which is nonempty and no
larger. -/
theorem c6_batch_partition {α : Type} (split order : List α)
    (h : order.Perm split) :
    ((toBatches order).flatten.Perm split) ∧
    (∀ b ∈ (toBatches order).dropLast, b.length = 32) ∧
    (∀ b ∈ toBatches order, 1 ≤ b.length ∧ b.length ≤ 32) := by
  refine ⟨?_, toBatches_dropLast_length order, toBatches_mem_length order⟩
  rw [toBatches_flatten]
  exact h

/-- Witness for C6: a two-element split drawn in reversed order. -/
theorem c6_batch_partition_witness :
    (([1, 0] : List ℕ).Perm [0, 1]) ∧
    (((toBatches ([1, 0] : List ℕ)).flatten.Perm [0, 1]) ∧
    (∀ b ∈ (toBatches ([1, 0] : List ℕ)).dropLast, b.length = 32) ∧
    (∀ b ∈ toBatches ([1, 0] : List ℕ), 1 ≤ b.length ∧ b.length ≤ 32)) :=
  ⟨by decide, c6_batch_partition [0, 1] [1, 0] (by decide)⟩

/-- Each softmax entry is non-negative. -/
theorem softmax_nonneg (z : Fin 2 → ℝ) (i : Fin 2) : 0 ≤ softmax z i :=
  div_nonneg (Real.exp_pos (z i)).le
    (Finset.sum_nonneg fun j _ => (Real.exp_pos (z j)).le)

/-- The softmax entries of a row sum to 1. -/
theorem softmax_sum_eq_one (z : Fin 2 → ℝ) : (∑ i, softmax z i) = 1 := by
  have hpos : 0 < ∑ j, Real.exp (z j) :=
    Finset.sum_pos (fun j _ => Real.exp_pos (z j)) Finset.univ_nonempty
  simp only [softmax]
  rw [← Finset.sum_div]
  exact div_self (ne_of_gt hpos)

/-- The forward pass is the softmax of the logits computed by the linear
head over the LSTM output. -/
theorem classifierForward_eq_softmax (p : ClassifierParams) (v : Fin 40 → ℝ) :
    classifierForward p v = softmax
      (fun i => (∑ j, p.outputW i j *
        relu ((∑ k, p.hiddenW j k * p.lstm v k) + p.hiddenB j)) + p.outputB i) := rfl

/-- Claim C7: every row of the classifier output on any batch of any size
is a 2-element probability distribution — entries non-negative, summing
to 1 — because the forward pass ends in a softmax. -/
theorem c7_output_distribution (p : ClassifierParams)
    (batch : List (Fin 40 → ℝ)) (row : Fin 2 → ℝ)
    (hrow : row ∈ classifierForwardBatch p batch) :
    (∀ i, 0 ≤ row i) ∧ (∑ i, row i) = 1 := by
  rcases List.mem_map.mp hrow with ⟨v, hv, hrow⟩
  subst hrow
  rw [classifierForward_eq_softmax]
  exact ⟨fun i => softmax_nonneg _ i, softmax_sum_eq_one _⟩

/-- Witness for C7: the all-zero model on a one-sample batch produces a
probability distribution. -/
theorem c7_output_distribution_witness :
    (classifierForward zeroParams zeroInput ∈ classifierForwardBatch zeroParams [zeroInput]) ∧
    ((∀ i, 0 ≤ classifierForward zeroParams zeroInput i) ∧
      (∑ i, classifierForward zeroParams zeroInput i) = 1) :=
  ⟨by simp [classifierForwardBatch],
    c7_output_distribution zeroParams [zeroInput] _ (by simp [classifierForwardBatch])⟩

/-- Claim C4: for every model and every input feature vector, the predictor
returns the Parkinson string exactly when the arg-max class of the
classifier output is 0 and the other string exactly when it is 1, and this
agrees with the dataset label encoding parkinson to 0 and notParkinson
to 1. -/
theorem c4_prediction_mapping (p : ClassifierParams) (v : Fin 40 → ℝ) :
    (predict_audio p v = "Parkinson\x27s"
        ↔ torchArgmax2 (classifierForward p v) = 0) ∧
    (predict_audio p v = "Not Parkinson\x27s"
        ↔ torchArgmax2 (classifierForward p v) = 1) ∧
    label_map "parkinson" = some 0 ∧ label_map "notParkinson" = some 1 := by
  have hcases : torchArgmax2 (classifierForward p v) = 0
      ∨ torchArgmax2 (classifierForward p v) = 1 := by
    rw [torchArgmax2]
    split
    · exact Or.inr rfl
    · exact Or.inl rfl
  rcases hcases with h | h <;>
    rw [predict_audio, h] <;>
    exact ⟨by simp [interpretPrediction], by simp [interpretPrediction], by decide, by decide⟩

/-- Counterexample to claim C2 as stated: the checkpoint path the trainer
writes is not the path the inference entry point reads back. -/
theorem c2_checkpoint_path_counterexample :
    trainerCheckpointPath ≠ inferenceCheckpointPath := by decide

/-- Claim C2, amended: parameters saved to a path and reloaded from that
same path come back unchanged and hence reproduce identical inference
outputs on any fixed input; but the path the trainer writes,
audio_classifier2.pth, differs from the path the inference-only run reads,
models/audio_classifier2.pth, so what the entry point loads is not the file
a fresh training run just wrote. -/
theorem c2_checkpoint_roundtrip_amended (fs : String → Option ClassifierParams)
    (p : ClassifierParams) (v : Fin 40 → ℝ) :
    torchLoad (torchSave fs trainerCheckpointPath p) trainerCheckpointPath = some p ∧
    (∀ q, torchLoad (torchSave fs trainerCheckpointPath p) trainerCheckpointPath = some q →
        classifierForward q v = classifierForward p v) ∧
    trainerCheckpointPath ≠ inferenceCheckpointPath := by
  have hload : torchLoad (torchSave fs trainerCheckpointPath p) trainerCheckpointPath
      = some p := by
    rw [torchLoad, torchSave]
    simp
  refine ⟨hload, ?_, by decide⟩
  intro q hq
  rw [hload] at hq
  rw [Option.some.injEq] at hq
  rw [hq]

/-- Witness for the amended C2: the all-zero parameters round-trip through
an empty file store. -/
theorem c2_checkpoint_roundtrip_amended_witness :
    torchLoad (torchSave emptyFileStore trainerCheckpointPath zeroParams)
        trainerCheckpointPath = some zeroParams ∧
    (∀ q, torchLoad (torchSave emptyFileStore trainerCheckpointPath zeroParams)
        trainerCheckpointPath = some q →
        classifierForward q zeroInput = classifierForward zeroParams zeroInput) ∧
    trainerCheckpointPath ≠ inferenceCheckpointPath :=
  c2_checkpoint_roundtrip_amended emptyFileStore zeroParams zeroInput

/-- Claim C8: the feature extractor is deterministic — equal inputs give
equal outputs — and, whenever the MFCC transform yields at least one frame
of 40 coefficients (its contract with `n_mfcc = 40`), the per-coefficient
time-average is a vector of exactly 40 numbers. -/
theorem c8_feature_vector_shape (m m2 : List (List ℚ))
    (hne : m ≠ []) (hlen : ∀ r ∈ m, r.length = 40) :
    (npMeanAxis0 m).length = 40 ∧ (m2 = m → npMeanAxis0 m2 = npMeanAxis0 m) := by
  refine ⟨?_, fun h => by rw [h]⟩
  obtain ⟨r, rest, rfl⟩ := List.exists_cons_of_ne_nil hne
  rw [npMeanAxis0]
  rw [List.length_map, List.length_range]
  exact hlen r (List.mem_cons_self r rest)

/-- Witness for C8: a concrete one-frame MFCC matrix yields a 40-entry
feature vector. -/
theorem c8_feature_vector_shape_witness :
    (c8Rows ≠ [] ∧ ∀ r ∈ c8Rows, r.length = 40) ∧
    ((npMeanAxis0 c8Rows).length = 40 ∧
      (c8Rows = c8Rows → npMeanAxis0 c8Rows = npMeanAxis0 c8Rows)) :=
  ⟨⟨by decide, by decide⟩,
    c8_feature_vector_shape c8Rows c8Rows (by decide) (by decide)⟩

end Trimming
